import Mathlib

/-!
Verification of the AI project grading assistant (`Ai.py`).

The file shallowly embeds the pure logic of the script: file-extension
dispatch, the three text-extraction routines, the feedback client boundary,
the report builder, the session-state updates performed on submit and clear,
and the multi-file concatenation loop.  External libraries (PyPDF2,
python-docx, python-pptx, the model providers) are modelled by their
observable outcome: a parse either yields structured content or raises,
which we embed as `Except String _` where the error string is `str(e)`.
-/

/-- The final path component of a name, as `pathlib` sees it: the last
non-empty `/`-separated segment (`Path("a/b").name = "b"`,
`Path("a/").name = "a"`). -/
def lastComponentChars (cs : List Char) : List Char :=
  let p := cs.foldl
    (fun (acc : List Char × List Char) c =>
      if c = '/' then (if acc.2 = [] then acc.1 else acc.2, []) else (acc.1, acc.2 ++ [c]))
    ([], [])
  if p.2 = [] then p.1 else p.2

/-- Index of the last occurrence of `'.'` in a character list, if any. -/
def lastDotIndex : List Char → Option Nat
  | [] => none
  | c :: cs =>
    match lastDotIndex cs with
    | some i => some (i + 1)
    | none => if c = '.' then some 0 else none

/-- Python `pathlib.Path(name).suffix`: the final extension of the last path
component, with its dot; empty when the name has no dot, starts with its
only dot, or ends with the dot. -/
def pathSuffix (s : String) : String :=
  let name := lastComponentChars s.toList
  match lastDotIndex name with
  | some i => if 0 < i ∧ i + 1 < name.length then String.mk (name.drop i) else ""
  | none => ""

/-- Python `str.lower()`, character by character. -/
def lowerString (s : String) : String :=
  String.mk (s.toList.map Char.toLower)

/-- The dispatch key of `process_file`: `Path(uploaded_file.name).suffix.lower()`. -/
def fileExtension (name : String) : String :=
  lowerString (pathSuffix name)

/-- What each document library makes of the bytes of a file: every byte blob
determines, for each of the three parsers, either structured content or the
`str(e)` of the exception the parser raises on it.
A PDF parses to the extracted texts of its pages, a DOCX to the texts of
its paragraphs, a PPTX to its slides, each slide a list of shapes where a shape
either has a `text` attribute (with its value) or lacks one. -/
structure FileBytes where
  asPdf : Except String (List String)
  asDocx : Except String (List String)
  asPptx : Except String (List (List (Option String)))

/-- An uploaded file: a name, bytes, and a size, per the data model. -/
structure UploadedFile where
  name : String
  bytes : FileBytes
  size : Nat

/-- Function `extract_text_from_pdf`: concatenate the text of every page,
each followed by a
newline; any exception from the parser is caught and returned as
`"Error reading PDF: " + str(e)`. -/
def extract_text_from_pdf (file : Except String (List String)) : String :=
  match file with
  | .error e => "Error reading PDF: " ++ e
  | .ok pages => pages.foldl (fun text page => text ++ page ++ "\n") ""

/-- Function `extract_text_from_docx`: concatenate the text of every
paragraph, each followed by a newline; any exception is caught and returned as
`"Error reading DOCX: " + str(e)`. -/
def extract_text_from_docx (file : Except String (List String)) : String :=
  match file with
  | .error e => "Error reading DOCX: " ++ e
  | .ok paragraphs => paragraphs.foldl (fun text p => text ++ p ++ "\n") ""

/-- Function `extract_text_from_pptx`: for every slide, for every shape that has a
`text` attribute, append that text followed by a newline; any exception is
caught and returned as `"Error reading PPTX: " + str(e)`. -/
def extract_text_from_pptx (file : Except String (List (List (Option String)))) : String :=
  match file with
  | .error e => "Error reading PPTX: " ++ e
  | .ok slides =>
    slides.foldl
      (fun text slide =>
        slide.foldl
          (fun text shape =>
            match shape with
            | some t => text ++ t ++ "\n"
            | none => text)
          text)
      ""

/-- Function `process_file`: dispatch on the lowercased suffix of the file name and
delegate to the matching extractor; any other extension yields the literal
unsupported-format message with no extraction attempted. -/
def process_file (uploaded_file : UploadedFile) : String :=
  let file_extension := fileExtension uploaded_file.name
  if file_extension = ".pdf" then
    extract_text_from_pdf uploaded_file.bytes.asPdf
  else if file_extension = ".docx" then
    extract_text_from_docx uploaded_file.bytes.asDocx
  else if file_extension = ".pptx" then
    extract_text_from_pptx uploaded_file.bytes.asPptx
  else
    "Unsupported file format"

/-- The fixed grading-prompt template of `generate_feedback`, with the
three inputs substituted at their f-string slots. -/
def gradingPrompt (content student_name file_name : String) : String :=
  "\nYou are an experienced academic instructor grading student projects. \n\nStudent Name: "
    ++ student_name
    ++ "\nProject File: "
    ++ file_name
    ++ "\n\nProject Content:\n"
    ++ content
    ++ "\n\nPlease provide detailed feedback on this student project following this structure:\n\n"
    ++ "1. **Overall Assessment** (Grade: A/B/C/D/F)\n   - Brief summary of the project quality\n   \n"
    ++ "2. **Strengths**\n   - What the student did well\n   - Specific examples from their work\n   \n"
    ++ "3. **Areas for Improvement**\n   - Specific areas that need work\n   - Constructive suggestions\n   \n"
    ++ "4. **Technical Quality**\n   - Content organization and structure\n   - Clarity of presentation\n   \n"
    ++ "5. **Recommendations**\n   - Specific next steps for improvement\n   - Resources or techniques to explore\n\n"
    ++ "Please be constructive, specific, and encouraging while maintaining academic standards.\n"

/-- Function `generate_feedback`: build the prompt, select the client of
the chosen provider, and
issue one single-turn request.  The two remote backends are parameters
`(api_key → model_name → prompt → outcome)`; a raise anywhere inside the
`try` block (client construction or invocation) is the `.error` case, caught
and returned as `"Error generating feedback: " + str(e)`. -/
def generate_feedback
    (openaiCall anthropicCall : String → String → String → Except String String)
    (content student_name file_name api_key model_name provider : String) : String :=
  let prompt := gradingPrompt content student_name file_name
  let response :=
    if provider = "ChatGPT" then openaiCall api_key model_name prompt
    else anthropicCall api_key model_name prompt
  match response with
  | .ok r => r
  | .error e => "Error generating feedback: " ++ e

/-- The four session-state slots the script tracks (`st.session_state`);
`none` models an absent key. -/
structure SessionState where
  feedback : Option String
  student_name : Option String
  file_names : Option (List String)
  timestamp : Option String
deriving DecidableEq

/-- The initial, empty session: no key present. -/
def initialSession : SessionState := ⟨none, none, none, none⟩

/-- The session-state writes of a completed submission (lines 269–274):
feedback, student name and file names are overwritten, and the timestamp is
read back with a nested pair of dictionary-get calls whose innermost default
is the freshly formatted clock string `now` — both get calls read the same
pre-existing slot, so a present value wins over `now` (first write wins). -/
def submitStore (s : SessionState) (feedback student_name : String)
    (file_names : List String) (now : String) : SessionState :=
  { feedback := some feedback
    student_name := some student_name
    file_names := some file_names
    timestamp := some (s.timestamp.getD (s.timestamp.getD now)) }

/-- The clear action (lines 305–309): for each of the four keys, delete it
if present. -/
def clearSession (s : SessionState) : SessionState :=
  let s1 := if s.feedback.isSome then { s with feedback := none } else s
  let s2 := if s1.student_name.isSome then { s1 with student_name := none } else s1
  let s3 := if s2.file_names.isSome then { s2 with file_names := none } else s2
  if s3.timestamp.isSome then { s3 with timestamp := none } else s3

/-- The concatenation loop of the submit action (lines 252–257):
`all_content += f"\n\n--- Content from {file.name} ---\n{content}"`
over the selected files in order, starting from the empty string. -/
def build_all_content (files : List UploadedFile) : String :=
  files.foldl
    (fun all_content file =>
      all_content ++ "\n\n--- Content from " ++ file.name ++ " ---\n" ++ process_file file)
    ""

/-- One block of the generated Word document: a heading with its level, or
a body paragraph. -/
inductive Block where
  | heading (level : Nat) (text : String)
  | paragraph (text : String)
deriving DecidableEq

/-- Function `create_word_document`: the fixed document template — title, Project
Details (student, file, `Generated:` line from the stored session timestamp,
`"N/A"` when absent), the feedback body, and the constant Teacher Notes
sentence. -/
def create_word_document (feedback student_name file_name : String)
    (session_timestamp : Option String) : List Block :=
  [ .heading 0 ("Project Feedback: " ++ student_name),
    .heading 1 "Project Details",
    .paragraph ("Student: " ++ student_name),
    .paragraph ("File: " ++ file_name),
    .paragraph ("Generated: " ++ session_timestamp.getD "N/A"),
    .heading 1 "AI-Generated Feedback",
    .paragraph feedback,
    .heading 1 "Teacher Notes",
    .paragraph "Please review and edit the above feedback as needed before sharing with the student." ]

/-- The concatenation of a list of texts in order, each followed by a
newline: the shape of the extraction result for PDF pages and DOCX
paragraphs. -/
def pagesText : List String → String
  | [] => ""
  | p :: ps => p ++ "\n" ++ pagesText ps

/-- The concatenation, over the shapes of one slide in order, of the text of
every shape that has a text attribute, each followed by a newline; shapes
without a text attribute contribute nothing. -/
def shapesText : List (Option String) → String
  | [] => ""
  | none :: rest => shapesText rest
  | some t :: rest => t ++ "\n" ++ shapesText rest

/-- The concatenation of the per-slide texts of a deck, slides in order. -/
def slidesText : List (List (Option String)) → String
  | [] => ""
  | sl :: rest => shapesText sl ++ slidesText rest

/-- The concatenation built by the submit loop, files in selection order:
for each file a header block naming it, then its processed content. -/
def contentsText : List UploadedFile → String
  | [] => ""
  | f :: fs => "\n\n--- Content from " ++ f.name ++ " ---\n" ++ process_file f ++ contentsText fs

theorem s_empty_append (a : String) : "" ++ a = a := by
  apply String.ext
  rw [String.data_append]
  rfl

theorem s_append_empty (a : String) : a ++ "" = a := by
  apply String.ext
  rw [String.data_append]
  exact List.append_nil _

theorem foldl_pages (ps : List String) :
    ∀ acc : String, ps.foldl (fun text page => text ++ page ++ "\n") acc = acc ++ pagesText ps := by
  induction ps with
  | nil => intro acc; simp [pagesText, s_append_empty]
  | cons p ps ih =>
    intro acc
    rw [List.foldl_cons, ih]
    simp [pagesText, String.append_assoc]

theorem foldl_shapes (sl : List (Option String)) :
    ∀ acc : String,
      sl.foldl
        (fun text shape =>
          match shape with
          | some t => text ++ t ++ "\n"
          | none => text)
        acc = acc ++ shapesText sl := by
  induction sl with
  | nil => intro acc; simp [shapesText, s_append_empty]
  | cons sh rest ih =>
    intro acc
    cases sh with
    | none => rw [List.foldl_cons, ih]; simp [shapesText]
    | some t =>
      rw [List.foldl_cons, ih]
      simp [shapesText, String.append_assoc]

theorem foldl_slides (slides : List (List (Option String))) :
    ∀ acc : String,
      slides.foldl
        (fun text slide =>
          slide.foldl
            (fun text shape =>
              match shape with
              | some t => text ++ t ++ "\n"
              | none => text)
            text)
        acc = acc ++ slidesText slides := by
  induction slides with
  | nil => intro acc; simp [slidesText, s_append_empty]
  | cons sl rest ih =>
    intro acc
    rw [List.foldl_cons, foldl_shapes, ih]
    simp [slidesText, String.append_assoc]

theorem foldl_contents (files : List UploadedFile) :
    ∀ acc : String,
      files.foldl
        (fun all_content file =>
          all_content ++ "\n\n--- Content from " ++ file.name ++ " ---\n" ++ process_file file)
        acc = acc ++ contentsText files := by
  induction files with
  | nil => intro acc; simp [contentsText, s_append_empty]
  | cons f fs ih =>
    intro acc
    rw [List.foldl_cons, ih]
    simp [contentsText, String.append_assoc]

/-- C1: whenever the remote-generation call selected by the provider raises
(any failure — auth, network, malformed key, rate limit, quota — modelled as
the stubbed call returning an error), `generate_feedback` returns the string
"Error generating feedback: " followed by the failure description, hence a
string beginning with "Error generating feedback:", and being a total
function it never propagates the failure to its caller. -/
theorem C1_generate_feedback_catches_failures
    (openaiCall anthropicCall : String → String → String → Except String String)
    (content student_name file_name api_key model_name provider e : String)
    (h : (if provider = "ChatGPT"
        then openaiCall api_key model_name (gradingPrompt content student_name file_name)
        else anthropicCall api_key model_name (gradingPrompt content student_name file_name))
      = Except.error e) :
    generate_feedback openaiCall anthropicCall content student_name file_name api_key
        model_name provider = "Error generating feedback: " ++ e
    ∧ ∃ rest, generate_feedback openaiCall anthropicCall content student_name file_name api_key
        model_name provider = "Error generating feedback:" ++ rest := by
  have hmain : generate_feedback openaiCall anthropicCall content student_name file_name api_key
      model_name provider = "Error generating feedback: " ++ e := by
    simp only [generate_feedback]
    rw [h]
  refine ⟨hmain, " " ++ e, ?_⟩
  rw [hmain]
  have hlit : ("Error generating feedback: " : String) = "Error generating feedback:" ++ " " := by
    decide
  rw [hlit, String.append_assoc]

/-- Witness for C1 at a concrete raising stub. -/
theorem C1_witness :
    generate_feedback (fun _ _ _ => Except.error "boom") (fun _ _ _ => Except.error "boom")
      "content" "stu" "essay.pdf" "key" "gpt-4o" "ChatGPT"
      = "Error generating feedback: boom" :=
  (C1_generate_feedback_catches_failures
    (fun _ _ _ => Except.error "boom") (fun _ _ _ => Except.error "boom")
    "content" "stu" "essay.pdf" "key" "gpt-4o" "ChatGPT" "boom" rfl).1

/-- C2: for every file whose lowercased name extension is not one of
".pdf", ".docx", ".pptx", `process_file` returns the literal
unsupported-format message, and the result does not depend on the bytes of
the file at all — none of the three extraction routines is consulted. -/
theorem C2_unsupported_extension_short_circuits (f : UploadedFile)
    (h : fileExtension f.name ∉ ([".pdf", ".docx", ".pptx"] : List String)) :
    process_file f = "Unsupported file format"
    ∧ ∀ b : FileBytes, process_file { f with bytes := b } = "Unsupported file format" := by
  have h1 : ¬ fileExtension f.name = ".pdf" := fun hh => h (by rw [hh]; simp)
  have h2 : ¬ fileExtension f.name = ".docx" := fun hh => h (by rw [hh]; simp)
  have h3 : ¬ fileExtension f.name = ".pptx" := fun hh => h (by rw [hh]; simp)
  exact ⟨by simp [process_file, h1, h2, h3], fun b => by simp [process_file, h1, h2, h3]⟩

/-- Witness for C2 at a concrete text file with non-trivial bytes. -/
theorem C2_witness :
    process_file ⟨"notes.txt", ⟨Except.ok ["x"], Except.error "e", Except.ok [[some "y"]]⟩, 7⟩
      = "Unsupported file format" :=
  (C2_unsupported_extension_short_circuits
    ⟨"notes.txt", ⟨Except.ok ["x"], Except.error "e", Except.ok [[some "y"]]⟩, 7⟩
    (by decide)).1

/-- C3: each of the three extraction routines is a total string-valued
function — no exception propagates — and on every input it either returns
the extracted text (pages, paragraphs, or slide texts concatenated with
newlines) or, when the underlying parser raises with description `e`,
returns the plain-text error message that contains `e`. -/
theorem C3_extraction_routines_never_raise :
    (∀ file : Except String (List String),
        (∃ pages, file = Except.ok pages ∧ extract_text_from_pdf file = pagesText pages)
      ∨ (∃ e, file = Except.error e ∧ extract_text_from_pdf file = "Error reading PDF: " ++ e))
    ∧ (∀ file : Except String (List String),
        (∃ paragraphs, file = Except.ok paragraphs
            ∧ extract_text_from_docx file = pagesText paragraphs)
      ∨ (∃ e, file = Except.error e ∧ extract_text_from_docx file = "Error reading DOCX: " ++ e))
    ∧ (∀ file : Except String (List (List (Option String))),
        (∃ slides, file = Except.ok slides ∧ extract_text_from_pptx file = slidesText slides)
      ∨ (∃ e, file = Except.error e
            ∧ extract_text_from_pptx file = "Error reading PPTX: " ++ e)) := by
  refine ⟨fun file => ?_, fun file => ?_, fun file => ?_⟩
  · cases file with
    | error e => exact Or.inr ⟨e, rfl, rfl⟩
    | ok pages =>
      exact Or.inl ⟨pages, rfl, by
        simp only [extract_text_from_pdf]
        rw [foldl_pages, s_empty_append]⟩
  · cases file with
    | error e => exact Or.inr ⟨e, rfl, rfl⟩
    | ok paragraphs =>
      exact Or.inl ⟨paragraphs, rfl, by
        simp only [extract_text_from_docx]
        rw [foldl_pages, s_empty_append]⟩
  · cases file with
    | error e => exact Or.inr ⟨e, rfl, rfl⟩
    | ok slides =>
      exact Or.inl ⟨slides, rfl, by
        simp only [extract_text_from_pptx]
        rw [foldl_slides, s_empty_append]⟩

/-- C4: the submit action builds the concatenated content by folding over
the selected files in selection order, producing for each file a header
block naming it followed by its processed content; concretely, for the
files a.pdf (one page "A") and b.docx (one paragraph "B") the result is the
a.pdf header, then its text, then the b.docx header, then its text. -/
theorem C4_submission_concatenates_in_selection_order :
    (∀ files : List UploadedFile, build_all_content files = contentsText files)
    ∧ build_all_content
        [⟨"a.pdf", ⟨Except.ok ["A"], Except.ok [], Except.ok []⟩, 1⟩,
         ⟨"b.docx", ⟨Except.ok [], Except.ok ["B"], Except.ok []⟩, 1⟩]
      = "\n\n--- Content from a.pdf ---\nA\n\n\n--- Content from b.docx ---\nB\n" := by
  constructor
  · intro files
    show files.foldl _ "" = contentsText files
    rw [foldl_contents, s_empty_append]
  · decide

/-- C5: when a timestamp is already present in the session, completing
another submission leaves it unchanged (first write wins) while the
feedback, subject-name and file-list slots are overwritten with the new
values, and the report builder applied to the post-submission state uses
exactly that stored timestamp — the same document as from the pre-existing
slot, independent of the fresh clock string. -/
theorem C5_timestamp_first_write_wins
    (s : SessionState) (fb nm : String) (fns : List String) (now v : String)
    (h : s.timestamp = some v) :
    (submitStore s fb nm fns now).timestamp = some v
    ∧ (submitStore s fb nm fns now).feedback = some fb
    ∧ (submitStore s fb nm fns now).student_name = some nm
    ∧ (submitStore s fb nm fns now).file_names = some fns
    ∧ ∀ fb2 nm2 fl2,
        create_word_document fb2 nm2 fl2 (submitStore s fb nm fns now).timestamp
          = create_word_document fb2 nm2 fl2 s.timestamp := by
  simp [submitStore, h]

/-- Witness for C5: a session whose timestamp was stamped at a first
generation keeps it across a later submission. -/
theorem C5_witness :
    (submitStore ⟨some "old fb", some "old nm", some ["old.pdf"], some "2024-01-01 00:00:00"⟩
        "new fb" "new nm" ["new.pdf"] "2025-12-31 23:59:59").timestamp
      = some "2024-01-01 00:00:00" :=
  (C5_timestamp_first_write_wins
    ⟨some "old fb", some "old nm", some ["old.pdf"], some "2024-01-01 00:00:00"⟩
    "new fb" "new nm" ["new.pdf"] "2025-12-31 23:59:59" "2024-01-01 00:00:00" rfl).1

/-- C6: after any submission, the clear action deletes all four tracked
slots: the resulting session equals the initial empty session, and each of
the four reads indicates absence. -/
theorem C6_clear_returns_session_to_initial
    (s : SessionState) (fb nm : String) (fns : List String) (now : String) :
    clearSession (submitStore s fb nm fns now) = initialSession
    ∧ (clearSession (submitStore s fb nm fns now)).feedback = none
    ∧ (clearSession (submitStore s fb nm fns now)).student_name = none
    ∧ (clearSession (submitStore s fb nm fns now)).file_names = none
    ∧ (clearSession (submitStore s fb nm fns now)).timestamp = none := by
  simp [clearSession, submitStore, initialSession]

/-- C7: on a well-formed PDF, extraction returns the concatenation of the
per-page texts in page order, each page followed by a newline; for the
single-page PDF with text "Hello" the result is exactly "Hello\n". -/
theorem C7_pdf_concatenates_pages_with_newlines :
    (∀ pages : List String, extract_text_from_pdf (Except.ok pages) = pagesText pages)
    ∧ extract_text_from_pdf (Except.ok ["Hello"]) = "Hello\n" := by
  constructor
  · intro pages
    show pages.foldl _ "" = pagesText pages
    rw [foldl_pages, s_empty_append]
  · decide

/-- C8: on a well-formed deck, extraction visits slides in order and within
each slide appends the text of every shape that has a text attribute,
followed by a newline, skipping shapes without one; for one slide with a
text shape "X" and one shape with no text the result is exactly "X\n". -/
theorem C8_pptx_concatenates_text_shapes_in_order :
    (∀ slides : List (List (Option String)),
        extract_text_from_pptx (Except.ok slides) = slidesText slides)
    ∧ extract_text_from_pptx (Except.ok [[some "X", none]]) = "X\n" := by
  constructor
  · intro slides
    show slides.foldl _ "" = slidesText slides
    rw [foldl_slides, s_empty_append]
  · decide

/-- C9: the report builder is a pure function of the feedback text, subject
name, file label and stored timestamp, so calling it twice with the same
inputs yields the identical document; and with the Generated line (index 4)
removed, the document does not depend on the timestamp value at all. -/
theorem C9_report_builder_idempotent (fb nm fl : String) (ts : Option String) :
    create_word_document fb nm fl ts = create_word_document fb nm fl ts
    ∧ ∀ ts2 : Option String,
        (create_word_document fb nm fl ts).eraseIdx 4
          = (create_word_document fb nm fl ts2).eraseIdx 4 :=
  ⟨rfl, fun _ => rfl⟩

/-- C10: in slide-deck extraction a shape whose text attribute is the empty
string is not skipped — it contributes a bare newline — while a shape with
no text attribute contributes nothing, so the output can contain blank
lines that correspond to no visible text. -/
theorem C10_empty_text_shape_contributes_newline :
    extract_text_from_pptx (Except.ok [[some ""]]) = "\n"
    ∧ extract_text_from_pptx (Except.ok [[none]]) = ""
    ∧ extract_text_from_pptx (Except.ok [[some "", none, some "X"]]) = "\nX\n" := by
  refine ⟨by decide, by decide, by decide⟩
